import Mathlib

/-!
Shallow embedding of the Kick.com OAuth2+PKCE client
(`src/kick/auth.py`, `src/kick/channel.py`, `src/kick/client.py`).

The authentication core (`AuthManager`) is modelled as explicit state
passing: the Python instance fields become an `AuthState` record, the
persisted token file becomes a `FileState` component of that record, and
every HTTP interaction is resolved through a `NetEnv` oracle while the
functions also return the list of network calls they performed.  Python
exceptions are modelled with `Except`; code that catches all exceptions
(`except Exception: pass`, bare `except:`) becomes a total function.
-/

namespace Kick

/-- A token record: the parsed JSON object returned by the token endpoint
and stored in `kick_tokens.json`, field name to value.  Field values are
kept opaque as strings; only presence and identity of fields matter. -/
abbrev TokenRecord := List (String × String)

/-- Python `dict.get(k)`: the value stored under `k`, or `None`. -/
def dictGet {β : Type} (d : List (String × β)) (k : String) : Option β :=
  List.lookup k d

/-- Python truthiness of an optional string (`if not self.access_token`):
`None` and the empty string are falsy. -/
def truthyOpt : Option String → Bool
  | none => false
  | some s => s != ""

/-- The persisted token file (`self.token_file`). -/
inductive FileState
  | absent
  /-- The file holds a completely written JSON token record. -/
  | stored (rec : TokenRecord)
  /-- The file exists but `json.load` fails on it (invalid encoding,
  unreadable content). -/
  | corrupt
  /-- The file was truncated by `open(path, "w")` but the subsequent
  `json.dump` never completed. -/
  | truncated
deriving DecidableEq

/-- The mutable instance fields of `AuthManager` together with the
persisted token file. -/
structure AuthState where
  access_token : Option String
  refresh_token : Option String
  token_data : Option TokenRecord
  oauth_state : Option String
  file : FileState
deriving DecidableEq

/-- `json.load` applied to the token file contents: succeeds exactly when
a complete record was written; a missing file is handled before the call
by `os.path.exists`. -/
def parseTokenFile : FileState → Except String TokenRecord
  | .stored rec => .ok rec
  | .absent => .error "no such file"
  | .corrupt => .error "invalid encoding"
  | .truncated => .error "unexpected end of input"

/-- `AuthManager._load_token`: if the file exists, try to parse it and
populate the cached fields; any exception is swallowed (`except
Exception: pass`), leaving the state unchanged.  The function is total:
it never raises. -/
def loadToken (s : AuthState) : AuthState :=
  if s.file = .absent then s
  else
    match parseTokenFile s.file with
    | .ok rec =>
        { s with token_data := some rec,
                 access_token := dictGet rec "access_token",
                 refresh_token := dictGet rec "refresh_token" }
    | .error _ => s

/-- `AuthManager.__init__` state construction: all cached fields start as
`None`, then `_load_token` runs against the given file. -/
def initAuth (file : FileState) : AuthState :=
  loadToken { access_token := none, refresh_token := none,
              token_data := none, oauth_state := none, file := file }

/-- `AuthManager._save_token` interrupted after `open(self.token_file,
"w")` truncated the target in place but before `json.dump` completed:
the in-memory fields are already updated and the file is left truncated. -/
def saveTokenInterrupted (rec : TokenRecord) (s : AuthState) : AuthState :=
  { s with token_data := some rec,
           access_token := dictGet rec "access_token",
           refresh_token := dictGet rec "refresh_token",
           file := .truncated }

/-- `AuthManager._save_token` run to completion: the updated fields of the
interrupted phase, and the file now holds exactly the new record
(overwrite, not append). -/
def saveToken (rec : TokenRecord) (s : AuthState) : AuthState :=
  { saveTokenInterrupted rec s with file := .stored rec }

/-- Constructor-level configuration of `AuthManager`. -/
structure Config where
  client_id : String
  client_secret : String
  redirect_uri : String

/-- The exceptions the embedded code can raise. -/
inductive KickErr
  /-- `KickAuthenticationError(msg)`. -/
  | auth (msg : String)
  /-- Python `KeyError` from `data["access_token"]`. -/
  | keyErr (k : String)
  /-- Uncaught transport-level exception raised by `requests`. -/
  | transport
deriving DecidableEq

/-- An HTTP request made by the client, identified by endpoint and data. -/
inductive NetCall
  /-- `GET https://api.kick.com/public/v1/users` with a bearer token. -/
  | getUsers (bearer : String)
  /-- `POST https://id.kick.com/oauth/token` with a form payload. -/
  | postToken (payload : List (String × String))
deriving DecidableEq

/-- An HTTP response: status code, JSON body (as a record) and raw text. -/
structure HttpResp where
  status : Nat
  json : TokenRecord
  text : String
deriving DecidableEq

/-- Oracle resolving every network call: `none` models a transport-level
exception raised by `requests`. -/
structure NetEnv where
  respond : NetCall → Option HttpResp

/-- `AuthManager._test_token`: false immediately when no access token is
cached; otherwise one `GET /public/v1/users` whose outcome decides the
result, with every exception caught (bare `except:` returns false).
Returns the result together with the list of network calls performed. -/
def testToken (env : NetEnv) (s : AuthState) : Bool × List NetCall :=
  if truthyOpt s.access_token then
    let call := NetCall.getUsers (s.access_token.getD "")
    match env.respond call with
    | none => (false, [call])
    | some r => (r.status == 200, [call])
  else
    (false, [])

/-- The form payload of the refresh request (`grant_type=refresh_token`). -/
def refreshPayload (cfg : Config) (rt : String) : List (String × String) :=
  [("grant_type", "refresh_token"), ("refresh_token", rt),
   ("client_id", cfg.client_id), ("client_secret", cfg.client_secret)]

/-- `AuthManager._refresh_token`: raises `KickAuthenticationError` when no
refresh token is cached (before any network call); otherwise one POST to
the token endpoint, saving the returned record on HTTP 200 and raising
`KickAuthenticationError` on any other status.  A transport exception
from `requests.post` is not caught and propagates. -/
def refreshTokenOp (cfg : Config) (env : NetEnv) (s : AuthState) :
    Except KickErr AuthState × List NetCall :=
  if truthyOpt s.refresh_token then
    let payload := refreshPayload cfg (s.refresh_token.getD "")
    let call := NetCall.postToken payload
    match env.respond call with
    | none => (.error .transport, [call])
    | some r =>
        if r.status = 200 then (.ok (saveToken r.json s), [call])
        else
          (.error (.auth ("Refresh failed: " ++ toString r.status ++ " " ++ r.text)),
           [call])
  else
    (.error (.auth "No refresh token available"), [])

/-- The URL-safe base64 alphabet (`+`/`/` replaced by `-`/`_`). -/
def b64alphabet : List Char :=
  "ABCDEFGHIJKLMNOPQRSTUVWXYZabcdefghijklmnopqrstuvwxyz0123456789-_".toList

/-- The URL-safe base64 character for a 6-bit value. -/
def b64c (n : Nat) : Char := b64alphabet.getD n 'A'

/-- `base64.urlsafe_b64encode` on a byte list, padding included: each
3-byte group yields 4 characters; a trailing group of 1 or 2 bytes is
padded with `=`. -/
def b64urlPadChars : List Nat → List Char
  | [] => []
  | [b1] => [b64c (b1 / 4), b64c (b1 % 4 * 16), '=', '=']
  | [b1, b2] => [b64c (b1 / 4), b64c (b1 % 4 * 16 + b2 / 16), b64c (b2 % 16 * 4), '=']
  | b1 :: b2 :: b3 :: rest =>
      b64c (b1 / 4) :: b64c (b1 % 4 * 16 + b2 / 16) ::
      b64c (b2 % 16 * 4 + b3 / 64) :: b64c (b3 % 64) :: b64urlPadChars rest

/-- Python `str.rstrip("=")`: drop every trailing `=`. -/
def rstripEqChars (cs : List Char) : List Char :=
  (cs.reverse.dropWhile (fun c => c = '=')).reverse

/-- `secrets.token_urlsafe` / the PKCE challenge derivation textually as
the source writes it: URL-safe base64 of the bytes, with the `=` padding
stripped. -/
def b64urlNoPadStr (bs : List Nat) : String :=
  String.mk (rstripEqChars (b64urlPadChars bs))

/-- The random material consumed by one `_full_oauth_flow` invocation,
together with the outcome of the blocking wait on the code queue. -/
structure FlowOracle where
  /-- The 64 random bytes behind `secrets.token_urlsafe(64)`. -/
  verifierBytes : List Nat
  /-- The 16 random bytes behind `secrets.token_urlsafe(16)`. -/
  stateBytes : List Nat
  /-- `some code` when the callback delivered a code within the 300 s
  wait, `none` when `Queue.get` timed out. -/
  codeArrival : Option String

/-- The PKCE code verifier generated by the flow. -/
def pkceVerifierOf (orc : FlowOracle) : String :=
  b64urlNoPadStr orc.verifierBytes

/-- The PKCE code challenge: URL-safe base64, stripped of `=` padding, of
the SHA-256 digest of the verifier (`sha256` is the abstract digest
function, UTF-8 encoding of the ASCII verifier included). -/
def pkceChallengeOf (sha256 : String → List Nat) (verifier : String) : String :=
  b64urlNoPadStr (sha256 verifier)

/-- Everything of the authorization URL before the challenge parameter. -/
def authUrlHead (cfg : Config) (orc : FlowOracle) (scopes : String) : String :=
  "https://id.kick.com/oauth/authorize?" ++
  "client_id=" ++ cfg.client_id ++ "&" ++
  "redirect_uri=" ++ cfg.redirect_uri ++ "&" ++
  "response_type=code&" ++
  "scope=" ++ scopes ++ "&" ++
  "state=" ++ b64urlNoPadStr orc.stateBytes ++ "&"

/-- The authorization URL `_full_oauth_flow` opens in the browser. -/
def flowAuthUrl (cfg : Config) (sha256 : String → List Nat)
    (orc : FlowOracle) (scopes : String) : String :=
  "https://id.kick.com/oauth/authorize?" ++
  "client_id=" ++ cfg.client_id ++ "&" ++
  "redirect_uri=" ++ cfg.redirect_uri ++ "&" ++
  "response_type=code&" ++
  "scope=" ++ scopes ++ "&" ++
  "state=" ++ b64urlNoPadStr orc.stateBytes ++ "&" ++
  "code_challenge=" ++ pkceChallengeOf sha256 (pkceVerifierOf orc) ++ "&" ++
  "code_challenge_method=S256"

/-- The form payload of the authorization-code exchange. -/
def exchangePayload (cfg : Config) (code verifier : String) :
    List (String × String) :=
  [("grant_type", "authorization_code"), ("client_id", cfg.client_id),
   ("client_secret", cfg.client_secret), ("code", code),
   ("redirect_uri", cfg.redirect_uri), ("code_verifier", verifier)]

/-- The network call the flow makes to exchange a received code. -/
def flowExchangeCall (cfg : Config) (orc : FlowOracle) (code : String) : NetCall :=
  NetCall.postToken (exchangePayload cfg code (pkceVerifierOf orc))

/-- `AuthManager._full_oauth_flow`: generate the PKCE session, set
`self._state`, open the browser on `flowAuthUrl`, wait for a code; on
timeout return `None`; on a code, exchange it — HTTP 200 saves the record
and returns its `access_token` entry (a missing entry is a `KeyError`),
any other status raises `KickAuthenticationError`. -/
def fullOauthFlow (cfg : Config) (env : NetEnv) (orc : FlowOracle)
    (s : AuthState) : Except KickErr (Option String × AuthState) × List NetCall :=
  let s1 := { s with oauth_state := some (b64urlNoPadStr orc.stateBytes) }
  match orc.codeArrival with
  | none => (.ok (none, s1), [])
  | some code =>
      let call := flowExchangeCall cfg orc code
      match env.respond call with
      | none => (.error .transport, [call])
      | some r =>
          if r.status = 200 then
            match dictGet r.json "access_token" with
            | some tok => (.ok (some tok, saveToken r.json s1), [call])
            | none => (.error (.keyErr "access_token"), [call])
          else
            (.error (.auth ("Token exchange failed: " ++ toString r.status ++
                            " " ++ r.text)),
             [call])

/-- `AuthManager.get_access_token`: the four-case policy.  Case 1 returns
the cached token when the validity check passes; case 2 refreshes when a
refresh token is cached (its exceptions propagate); case 3 fails fast
with one of two `KickAuthenticationError` messages; case 4 (forced) runs
the interactive flow and turns its `None` result into
`KickAuthenticationError`. -/
def getAccessToken (cfg : Config) (env : NetEnv) (orc : FlowOracle)
    (force_new : Bool) (s : AuthState) :
    Except KickErr (Option String × AuthState) × List NetCall :=
  if force_new then
    match fullOauthFlow cfg env orc s with
    | (.error e, tr) => (.error e, tr)
    | (.ok (none, _), tr) =>
        (.error (.auth "Full OAuth flow failed (timeout or error)"), tr)
    | (.ok (some tok, s1), tr) => (.ok (some tok, s1), tr)
  else
    let t := testToken env s
    if t.1 then (.ok (s.access_token, s), t.2)
    else if truthyOpt s.refresh_token then
      match refreshTokenOp cfg env s with
      | (.error e, tr) => (.error e, t.2 ++ tr)
      | (.ok s1, tr) => (.ok (s1.access_token, s1), t.2 ++ tr)
    else if s.access_token = none ∧ s.refresh_token = none then
      (.error (.auth ("No valid access token and no refresh token available. " ++
                      "Call with force_new=True or re-authenticate manually.")),
       t.2)
    else
      (.error (.auth "Token state invalid – cannot proceed without user interaction"),
       t.2)

/-- The body returned by the `/callback` route on success (HTTP 200). -/
def callbackSuccessBody : String := "<h2>✅ Success! You can close this tab now.</h2>"

/-- The body returned by the `/callback` route on rejection (HTTP 400). -/
def callbackErrorBody : String := "<h2>❌ Error: no code or state mismatch</h2>"

/-- Outcome of one request to the `/callback` route: response body,
status code, and the code queue afterwards. -/
structure CallbackResult where
  body : String
  status : Nat
  queue : List String
deriving DecidableEq

/-- The Flask `/callback` route: accepts exactly when the `code` query
parameter is truthy and the `state` parameter equals the cached
`self._state` (Python `==`, where both may be `None`); acceptance puts
the code on the queue and answers 200, everything else answers 400 and
leaves the queue alone. -/
def callbackRoute (sessionState : Option String) (queue : List String)
    (codeParam stateParam : Option String) : CallbackResult :=
  if truthyOpt codeParam && (stateParam == sessionState) then
    { body := callbackSuccessBody, status := 200,
      queue := queue ++ [codeParam.getD ""] }
  else
    { body := callbackErrorBody, status := 400, queue := queue }

/-- The `custom_tags` argument of `update_channel`: a comma-separated
string or an explicit list. -/
inductive TagsArg
  | str (s : String)
  | list (l : List String)
deriving DecidableEq

/-- A JSON value of the PATCH request body. -/
inductive BodyVal
  | vstr (s : String)
  | vint (n : Int)
  | vtags (l : List String)
deriving DecidableEq

/-- `[t.strip() for t in custom_tags.split(",") if t.strip()]`: split on
commas, strip surrounding whitespace, drop pieces that strip to empty. -/
def pyTagSplit (s : String) : List String :=
  ((s.splitOn ",").map String.trim).filter (fun t => t != "")

/-- The JSON body built by `ChannelOperations.update_channel` (identical
in `KickClient.update_channel`): optional `stream_title`, `category_id`
and `custom_tags` entries, a string tags argument being split while a
list passes through unchanged. -/
def updateChannelBody (title : Option String) (category_id : Option Int)
    (custom_tags : Option TagsArg) : List (String × BodyVal) :=
  let b1 : List (String × BodyVal) :=
    match title with
    | some t => [("stream_title", BodyVal.vstr t)]
    | none => []
  let b2 : List (String × BodyVal) :=
    match category_id with
    | some c => b1 ++ [("category_id", BodyVal.vint c)]
    | none => b1
  match custom_tags with
  | some (.str s) => b2 ++ [("custom_tags", BodyVal.vtags (pyTagSplit s))]
  | some (.list l) => b2 ++ [("custom_tags", BodyVal.vtags l)]
  | none => b2

/-- No base64 alphabet character is the padding character. -/
theorem b64c_ne_eq (n : Nat) : b64c n ≠ '=' := by
  by_cases h : n < 64
  · interval_cases n <;> decide
  · have hlen : b64alphabet.length = 64 := by decide
    unfold b64c
    rw [List.getD_eq_default]
    · decide
    · omega

/-- Stripping trailing padding only touches the appended suffix when that
suffix does not strip to nothing. -/
theorem rstripEq_append (a b : List Char) (h : rstripEqChars b ≠ []) :
    rstripEqChars (a ++ b) = a ++ rstripEqChars b := by
  unfold rstripEqChars at *
  have hne : (b.reverse.dropWhile (fun c => decide (c = '='))).isEmpty = false := by
    cases hd : b.reverse.dropWhile (fun c => decide (c = '=')) with
    | nil => exact absurd (by rw [hd]; rfl) h
    | cons x xs => rfl
  rw [List.reverse_append, List.dropWhile_append, hne]
  simp

/-- The stripped URL-safe base64 encoding of `n` bytes has `⌈4n/3⌉`
characters. -/
theorem rstrip_b64_length (bs : List Nat) :
    (rstripEqChars (b64urlPadChars bs)).length = (4 * bs.length + 2) / 3 := by
  induction bs using b64urlPadChars.induct with
  | case1 => rfl
  | case2 b1 =>
      simp [b64urlPadChars, rstripEqChars, List.dropWhile, b64c_ne_eq]
  | case3 b1 b2 =>
      simp [b64urlPadChars, rstripEqChars, List.dropWhile, b64c_ne_eq]
  | case4 b1 b2 b3 rest ih =>
      cases rest with
      | nil =>
          simp [b64urlPadChars, rstripEqChars, List.dropWhile, b64c_ne_eq]
      | cons r rs =>
          have hne : rstripEqChars (b64urlPadChars (r :: rs)) ≠ [] := by
            intro hnil
            have := ih
            rw [hnil] at this
            simp at this
            omega
          have happ :
              b64urlPadChars (b1 :: b2 :: b3 :: r :: rs) =
                [b64c (b1 / 4), b64c (b1 % 4 * 16 + b2 / 16),
                 b64c (b2 % 16 * 4 + b3 / 64), b64c (b3 % 64)] ++
                b64urlPadChars (r :: rs) := rfl
          rw [happ, rstripEq_append _ _ hne]
          simp only [List.length_append, List.length_cons, List.length_nil]
          rw [ih]
          simp only [List.length_cons]
          omega

/-- Character count of the padding-stripped URL-safe base64 encoding. -/
theorem b64urlNoPadStr_length (bs : List Nat) :
    (b64urlNoPadStr bs).length = (4 * bs.length + 2) / 3 := by
  show (rstripEqChars (b64urlPadChars bs)).length = _
  exact rstrip_b64_length bs

/-- A fresh client state with nothing cached. -/
def emptyAuthState : AuthState :=
  { access_token := none, refresh_token := none, token_data := none,
    oauth_state := none, file := .absent }

/-- A network oracle on which every request fails at transport level. -/
def noNetEnv : NetEnv := ⟨fun _ => none⟩

/-- A flow oracle whose callback wait times out. -/
def idleOracle : FlowOracle :=
  { verifierBytes := [], stateBytes := [], codeArrival := none }

/-- Sample constructor configuration. -/
def demoCfg : Config :=
  { client_id := "cid", client_secret := "csec",
    redirect_uri := "http://localhost:8080/callback" }

/-- C1: with no cached access token and no refresh token,
`get_access_token(force_new=False)` raises `KickAuthenticationError`
("no credentials at all" message) after zero network calls — it neither
starts an interactive flow nor returns a value. -/
theorem C1_no_credentials_fail_fast (cfg : Config) (env : NetEnv)
    (orc : FlowOracle) (s : AuthState)
    (ha : s.access_token = none) (hr : s.refresh_token = none) :
    getAccessToken cfg env orc false s =
      (.error (.auth ("No valid access token and no refresh token available. " ++
                      "Call with force_new=True or re-authenticate manually.")),
       []) := by
  simp [getAccessToken, testToken, truthyOpt, ha, hr]

theorem C1_no_credentials_fail_fast_witness :
    emptyAuthState.access_token = none ∧ emptyAuthState.refresh_token = none ∧
    getAccessToken demoCfg noNetEnv idleOracle false emptyAuthState =
      (.error (.auth ("No valid access token and no refresh token available. " ++
                      "Call with force_new=True or re-authenticate manually.")),
       []) :=
  ⟨rfl, rfl,
   C1_no_credentials_fail_fast demoCfg noNetEnv idleOracle emptyAuthState rfl rfl⟩

/-- C5: with no cached refresh token, `_refresh_token` raises
`KickAuthenticationError` and performs no network call. -/
theorem C5_refresh_without_token (cfg : Config) (env : NetEnv) (s : AuthState)
    (h : s.refresh_token = none) :
    refreshTokenOp cfg env s =
      (.error (.auth "No refresh token available"), []) := by
  simp [refreshTokenOp, truthyOpt, h]

theorem C5_refresh_without_token_witness :
    emptyAuthState.refresh_token = none ∧
    refreshTokenOp demoCfg noNetEnv emptyAuthState =
      (.error (.auth "No refresh token available"), []) :=
  ⟨rfl, C5_refresh_without_token demoCfg noNetEnv emptyAuthState rfl⟩

/-- C6: on a missing, unreadable or partially written token file,
`_load_token` (run from `__init__`) swallows the failure — the embedding
is a total function, so it never raises — and the resulting state has
`access_token`, `refresh_token` and `token_data` all unset. -/
theorem C6_load_failure_absent (f : FileState)
    (h : f = .absent ∨ f = .corrupt ∨ f = .truncated) :
    (initAuth f).access_token = none ∧ (initAuth f).refresh_token = none ∧
    (initAuth f).token_data = none := by
  rcases h with h | h | h <;> subst h <;> exact ⟨rfl, rfl, rfl⟩

theorem C6_load_failure_absent_witness :
    (FileState.corrupt = .absent ∨ FileState.corrupt = .corrupt ∨
      FileState.corrupt = .truncated) ∧
    (initAuth .corrupt).access_token = none ∧
    (initAuth .corrupt).refresh_token = none ∧
    (initAuth .corrupt).token_data = none :=
  ⟨Or.inr (Or.inl rfl), C6_load_failure_absent .corrupt (Or.inr (Or.inl rfl))⟩

/-- C7: a record saved by `_save_token` and loaded back by a fresh
`_load_token` yields exactly the saved `access_token` and
`refresh_token`, and the whole record — any additional server fields
included — round-trips verbatim into `token_data`. -/
theorem C7_save_load_roundtrip (rec : TokenRecord) (s : AuthState) :
    (initAuth (saveToken rec s).file).access_token =
      (saveToken rec s).access_token ∧
    (initAuth (saveToken rec s).file).refresh_token =
      (saveToken rec s).refresh_token ∧
    (initAuth (saveToken rec s).file).token_data = some rec :=
  ⟨rfl, rfl, rfl⟩

/-- C8: with no cached access token, `_test_token` returns false after
zero network calls. -/
theorem C8_test_without_token (env : NetEnv) (s : AuthState)
    (h : s.access_token = none) :
    testToken env s = (false, []) := by
  simp [testToken, truthyOpt, h]

theorem C8_test_without_token_witness :
    emptyAuthState.access_token = none ∧
    testToken noNetEnv emptyAuthState = (false, []) :=
  ⟨rfl, C8_test_without_token noNetEnv emptyAuthState rfl⟩

/-- C2: `get_access_token(force_new=True)` raises
`KickAuthenticationError` whenever the callback wait times out or the
code exchange comes back with a non-success status: it does not return a
token (the embedding is total, so it cannot hang). -/
theorem C2_forced_flow_failure (cfg : Config) (env : NetEnv)
    (orc : FlowOracle) (s : AuthState)
    (h : ∀ code, orc.codeArrival = some code →
      ∃ r, env.respond (flowExchangeCall cfg orc code) = some r ∧
        r.status ≠ 200) :
    ∃ msg, (getAccessToken cfg env orc true s).1 = .error (.auth msg) := by
  cases hc : orc.codeArrival with
  | none =>
      exact ⟨"Full OAuth flow failed (timeout or error)",
             by simp [getAccessToken, fullOauthFlow, hc]⟩
  | some code =>
      obtain ⟨r, hrr, hs⟩ := h code hc
      exact ⟨"Token exchange failed: " ++ toString r.status ++ " " ++ r.text,
             by simp [getAccessToken, fullOauthFlow, hc, hrr, hs]⟩

theorem C2_forced_flow_failure_witness :
    (∀ code, idleOracle.codeArrival = some code →
      ∃ r, noNetEnv.respond (flowExchangeCall demoCfg idleOracle code) = some r ∧
        r.status ≠ 200) ∧
    ∃ msg, (getAccessToken demoCfg noNetEnv idleOracle true emptyAuthState).1 =
      .error (.auth msg) :=
  ⟨(fun _ hc => nomatch hc),
   C2_forced_flow_failure demoCfg noNetEnv idleOracle emptyAuthState
     (fun _ hc => nomatch hc)⟩

/-- C3: a callback request with a missing `code` parameter or a `state`
parameter different from the session's generated state gets the 400
rejection — a response distinct from the success response — and leaves
the code queue unchanged, so the waiting flow is not unblocked. -/
theorem C3_callback_rejects (gen : String) (q : List String)
    (codeParam stateParam : Option String)
    (h : codeParam = none ∨ stateParam ≠ some gen) :
    callbackRoute (some gen) q codeParam stateParam =
      { body := callbackErrorBody, status := 400, queue := q } ∧
    callbackErrorBody ≠ callbackSuccessBody ∧ (400 : Nat) ≠ 200 := by
  refine ⟨?_, by decide, by decide⟩
  have hcond : (truthyOpt codeParam && (stateParam == some gen)) = false := by
    rcases h with h | h
    · simp [h, truthyOpt]
    · have : (stateParam == some gen) = false := beq_eq_false_iff_ne.mpr h
      simp [this]
  unfold callbackRoute
  rw [hcond]
  simp

theorem C3_callback_rejects_witness :
    ((none : Option String) = none ∨ (some "stale" : Option String) ≠ some "gen") ∧
    (callbackRoute (some "gen") [] none (some "stale") =
      { body := callbackErrorBody, status := 400, queue := [] } ∧
    callbackErrorBody ≠ callbackSuccessBody ∧ (400 : Nat) ≠ 200) :=
  ⟨Or.inl rfl, C3_callback_rejects "gen" [] none (some "stale") (Or.inl rfl)⟩

/-- The record persisted before the interrupted save of the C4
counterexample. -/
def c4OldRec : TokenRecord := [("access_token", "old-token")]

/-- A client state whose token file holds `c4OldRec`. -/
def c4OldState : AuthState :=
  { access_token := some "old-token", refresh_token := none,
    token_data := some c4OldRec, oauth_state := none, file := .stored c4OldRec }

/-- C4 counterexample: `_save_token` opens the token file with mode "w",
which truncates it in place before `json.dump` runs; a save interrupted
at that point leaves the file truncated, not the previously persisted
record — the claim that the previous file stays intact on a partial
write failure is false at this concrete input. -/
theorem C4_counterexample :
    (saveTokenInterrupted [("access_token", "new-token")] c4OldState).file ≠
      FileState.stored c4OldRec := by decide

/-- C4 amended: a completed save fully overwrites the store with exactly
the new record (overwrite, not append), but a save that fails after the
`open(..., "w")` truncation leaves the store truncated rather than the
previous record. -/
theorem C4_amended_save_semantics (rec : TokenRecord) (s : AuthState) :
    (saveToken rec s).file = .stored rec ∧
    (saveTokenInterrupted rec s).file = .truncated :=
  ⟨rfl, rfl⟩

/-- C9: the code verifier derived from the 64 random bytes of
`secrets.token_urlsafe(64)` has 86 ≥ 43 characters; the challenge is the
padding-stripped URL-safe base64 of the SHA-256 digest of the verifier
and is what the authorization URL embeds; the exchange payload presents
the verifier under `code_verifier` and carries no `code_challenge`
field. -/
theorem C9_pkce_flow (cfg : Config) (sha256 : String → List Nat)
    (orc : FlowOracle) (scopes code : String)
    (h : orc.verifierBytes.length = 64) :
    43 ≤ (pkceVerifierOf orc).length ∧
    pkceChallengeOf sha256 (pkceVerifierOf orc) =
      b64urlNoPadStr (sha256 (pkceVerifierOf orc)) ∧
    flowAuthUrl cfg sha256 orc scopes =
      authUrlHead cfg orc scopes ++ "code_challenge=" ++
        pkceChallengeOf sha256 (pkceVerifierOf orc) ++
        "&code_challenge_method=S256" ∧
    dictGet (exchangePayload cfg code (pkceVerifierOf orc)) "code_verifier" =
      some (pkceVerifierOf orc) ∧
    dictGet (exchangePayload cfg code (pkceVerifierOf orc)) "code_challenge" =
      none := by
  refine ⟨?_, rfl, ?_, ?_, ?_⟩
  · have hl : (pkceVerifierOf orc).length = 86 := by
      show (b64urlNoPadStr orc.verifierBytes).length = 86
      rw [b64urlNoPadStr_length, h]
    omega
  · simp [flowAuthUrl, authUrlHead, String.append_assoc]
  · rfl
  · rfl

/-- The flow oracle of the C9 witness: 64 zero bytes of verifier
material. -/
def c9Oracle : FlowOracle :=
  { verifierBytes := List.replicate 64 0, stateBytes := [], codeArrival := none }

/-- A concrete stand-in digest function for the C9 witness. -/
def c9Sha (_ : String) : List Nat := List.replicate 32 0

theorem C9_pkce_flow_witness :
    c9Oracle.verifierBytes.length = 64 ∧
    (43 ≤ (pkceVerifierOf c9Oracle).length ∧
    pkceChallengeOf c9Sha (pkceVerifierOf c9Oracle) =
      b64urlNoPadStr (c9Sha (pkceVerifierOf c9Oracle)) ∧
    flowAuthUrl demoCfg c9Sha c9Oracle "user:read" =
      authUrlHead demoCfg c9Oracle "user:read" ++ "code_challenge=" ++
        pkceChallengeOf c9Sha (pkceVerifierOf c9Oracle) ++
        "&code_challenge_method=S256" ∧
    dictGet (exchangePayload demoCfg "c0de" (pkceVerifierOf c9Oracle))
        "code_verifier" = some (pkceVerifierOf c9Oracle) ∧
    dictGet (exchangePayload demoCfg "c0de" (pkceVerifierOf c9Oracle))
        "code_challenge" = none) :=
  ⟨by decide, C9_pkce_flow demoCfg c9Sha c9Oracle "user:read" "c0de" (by decide)⟩

/-- C10: when `update_channel` receives `custom_tags` as a string, the
`custom_tags` entry of the PATCH body is the comma-split,
whitespace-stripped, empty-dropped list; a list argument passes through
unchanged. -/
theorem C10_custom_tags_normalisation (title : Option String)
    (category_id : Option Int) (s : String) (l : List String) :
    dictGet (updateChannelBody title category_id (some (.str s)))
        "custom_tags" =
      some (.vtags (((s.splitOn ",").map String.trim).filter
        (fun t => t != ""))) ∧
    dictGet (updateChannelBody title category_id (some (.list l)))
        "custom_tags" =
      some (.vtags l) := by
  cases title <;> cases category_id <;> exact ⟨rfl, rfl⟩

end Kick
